import Mathlib

/-!
Verification of the perlin-art program (src/perlin_art.py) against its
natural-language specification.

The Python source is shallowly embedded over ℚ:

* numpy float64 values are modelled as rationals;
* `np.random.randint(lo, hi)` calls are modelled by `pyRandintI` / `pyRandintN`
  applied to an abstract stream of draws (a function from call indices), which
  always lands in `[lo, hi)` exactly as `randint` does;
* Python `int(...)` truncation toward zero is `pyInt`;
* `noise.pnoise3` is an abstract sampling function passed as a parameter, and the
  wall-clock value read by `time.time()` is passed as the parameter `now`
  (both calls inside one `perlin_move` read the same tick instant);
* the global `CANVAS` (a `1000 × 1000 × 3` numpy array) is external frame-buffer
  state; reading a pixel is modelled by an abstract total function
  `cpx : ℤ → ℤ → ℚ × ℚ × ℚ`, and `cv2.line` calls are modelled as emitted
  `Draw` records rather than buffer mutation;
* `raise` / failed `assert` are modelled with `Except String`;
* Python truthiness of an optional integer argument (`if n:`) is `truthy`,
  and of an optional float (`if alpha:`) is `truthyQ`.
-/

/-- Python `int()` on a rational: truncation toward zero. -/
def pyInt (q : ℚ) : ℤ := q.num.tdiv q.den

/-- `np.random.randint(lo, hi)` on integers, given one abstract draw `r`:
the result is `lo + r % (hi - lo)`, always in `[lo, hi)` for `lo < hi`. -/
def pyRandintI (r : ℕ) (lo hi : ℤ) : ℤ := lo + (r : ℤ) % (hi - lo)

/-- `np.random.randint(lo, hi)` on naturals, given one abstract draw `r`. -/
def pyRandintN (r : ℕ) (lo hi : ℕ) : ℕ := lo + r % (hi - lo)

/-- Python truthiness of an optional integer argument (`None` and `0` are falsy). -/
def truthy : Option ℕ → Bool
  | none => false
  | some v => decide (v ≠ 0)

/-- Python truthiness of an optional rational argument (`None` and `0.0` are falsy). -/
def truthyQ : Option ℚ → Bool
  | none => false
  | some a => decide (a ≠ 0)

/-- Whether an `Except` computation succeeded. -/
def exceptIsOk {α : Type} : Except String α → Bool
  | Except.ok _ => true
  | Except.error _ => false

/-- Python list indexing `l[i]` for nonnegative `i`: out of range raises `IndexError`. -/
def pyIdx (l : List ℚ) (i : ℕ) : Except String ℚ :=
  match l[i]? with
  | some v => Except.ok v
  | none => Except.error "IndexError"

/-- The `else` branch of `rgba2rgb`'s alpha resolution:
`assert len(color) == 4, "Need 4 channel RGBA if no alpha defined"; a = color[-1]`. -/
def colorAlpha (color : List ℚ) : Except String ℚ :=
  if color.length = 4 then
    match color.getLast? with
    | some v => Except.ok v
    | none => Except.error "IndexError"
  else
    Except.error "Need 4 channel RGBA if no alpha defined"

/-- `rgba2rgb(color, background, alpha)` from the source: resolves the alpha value
(`if alpha:` Python truthiness, else the assert on a 4-channel color), then blends
each of the three channels against the background and truncates with `int(...)`. -/
def rgba2rgb (color : List ℚ) (background : ℚ × ℚ × ℚ) (alpha : Option ℚ) :
    Except String (ℤ × ℤ × ℤ) :=
  match (match alpha with
         | some a => if a ≠ 0 then Except.ok a else colorAlpha color
         | none => colorAlpha color) with
  | Except.error e => Except.error e
  | Except.ok a =>
    match pyIdx color 0, pyIdx color 1, pyIdx color 2 with
    | Except.ok c0, Except.ok c1, Except.ok c2 =>
        Except.ok (pyInt ((1 - a) * background.1 + a * c0),
                   pyInt ((1 - a) * background.2.1 + a * c1),
                   pyInt ((1 - a) * background.2.2 + a * c2))
    | Except.error e, _, _ => Except.error e
    | _, Except.error e, _ => Except.error e
    | _, _, Except.error e => Except.error e

/-- State of a `PLine`: current position `(x, y)`, previous position `(xi, yi)`,
original/anchor position `(xo, yo)`, velocity increments `(xinc, yinc)`, and the
noise time-offset `z`. -/
structure PLine where
  x : ℚ
  y : ℚ
  xi : ℚ
  yi : ℚ
  xo : ℚ
  yo : ℚ
  xinc : ℚ
  yinc : ℚ
  z : ℚ

/-- `PLine.__init__(center)`: all three positions start at `center`; `xinc`, `yinc`
and `z` are drawn by `np.random.randint(-10, 10)` (three abstract draws `r`). -/
def PLine.init (center : ℚ × ℚ) (r : ℕ × ℕ × ℕ) : PLine :=
  { x := center.1, y := center.2
    xi := center.1, yi := center.2
    xo := center.1, yo := center.2
    xinc := (pyRandintI r.1 (-10) 10 : ℤ)
    yinc := (pyRandintI r.2.1 (-10) 10 : ℤ)
    z := (pyRandintI r.2.2 (-10) 10 : ℤ) }

/-- `PLine.timedelta()`: `time.time() * 0.0001 - self.z`, with the wall-clock
reading passed as `now`. -/
def PLine.timedelta (p : PLine) (now : ℚ) : ℚ := now * (1 / 10000) - p.z

/-- `PLine.perlin_move()`: sample the noise field at `(x*0.01, y*0.01, t)` and at
`(y*0.01, x*0.01, t)`, accumulate into the increments, record the current position
into the previous position, then add the updated increments to the position. -/
def PLine.perlin_move (noise : ℚ → ℚ → ℚ → ℚ) (now : ℚ) (p : PLine) : PLine :=
  let px := noise (p.x * (1 / 100)) (p.y * (1 / 100)) (p.timedelta now)
  let py := noise (p.y * (1 / 100)) (p.x * (1 / 100)) (p.timedelta now)
  let xinc := p.xinc + px
  let yinc := p.yinc + py
  { p with
    xinc := xinc
    yinc := yinc
    xi := p.x
    yi := p.y
    x := p.x + xinc
    y := p.y + yinc }

/-- Iterated `PLine.perlin_move` over `n` ticks, with a wall-clock reading per tick. -/
def PLine.moveN (noise : ℚ → ℚ → ℚ → ℚ) (ts : ℕ → ℚ) : ℕ → PLine → PLine
  | 0, p => p
  | Nat.succ k, p => PLine.moveN noise ts k (p.perlin_move noise (ts k))

/-- State of a `PShape`: the owned lines, the two per-axis bounds, and the shape tag. -/
structure PShape where
  plines : List PLine
  xbounds : ℚ × ℚ
  ybounds : ℚ × ℚ
  shape : String

/-- `PShape.__init__(center, xbounds, ybounds, lines, shape)`: creates `lines`
`PLine`s at `center` (each consuming three abstract random draws via `prng`). -/
def PShape.init (center : ℚ × ℚ) (xbounds ybounds : ℚ × ℚ) (lines : ℕ)
    (shape : String) (prng : ℕ → ℕ × ℕ × ℕ) : PShape :=
  { plines := (List.range lines).map (fun i => PLine.init center (prng i))
    xbounds := xbounds
    ybounds := ybounds
    shape := shape }

/-- The `np.float64` overload of `PShape.within`: a 1-D position is within a 1-D
bounding range, inclusive on both ends. -/
def withinF64 (position : ℚ) (bounds : ℚ × ℚ) : Bool :=
  decide (bounds.1 ≤ position ∧ position ≤ bounds.2)

/-- The `PLine` overload of `PShape.within`: `within_bool` starts `False`; the
`"rectangle"` branch tests the previous position against both bounds ranges, the
`"circle"` branch tests the normalized squared distance from the anchor with the
full bound spans squared as denominators, and any other tag falls through. -/
def PShape.withinPLine (s : PShape) (p : PLine) : Bool :=
  if s.shape = "rectangle" then
    decide (s.xbounds.1 ≤ p.xi ∧ p.xi ≤ s.xbounds.2) &&
      decide (s.ybounds.1 ≤ p.yi ∧ p.yi ≤ s.ybounds.2)
  else if s.shape = "circle" then
    decide ((p.xi - p.xo) ^ 2 / (s.xbounds.2 - s.xbounds.1) ^ 2 +
      (p.yi - p.yo) ^ 2 / (s.ybounds.2 - s.ybounds.1) ^ 2 ≤ 1)
  else
    false

/-- An argument passed positionally to the `singledispatchmethod` `PShape.within`:
either an `np.float64` position with a bounds pair, a `PLine`, or a value of any
type not registered with the dispatcher. -/
inductive WithinArg where
  | f64 (position : ℚ) (bounds : ℚ × ℚ)
  | pl (p : PLine)
  | unregistered

/-- `PShape.within` dispatch: the registered overloads handle `np.float64` and
`PLine`; any other argument type falls to the base implementation, which raises
`NotImplementedError`. -/
def PShape.within (s : PShape) : WithinArg → Except String Bool
  | WithinArg.f64 position bounds => Except.ok (withinF64 position bounds)
  | WithinArg.pl p => Except.ok (s.withinPLine p)
  | WithinArg.unregistered =>
      Except.error "Within only supports np.float64 or Pline Object"

/-- `CANVAS.shape[0]` for the global `np.zeros((1000, 1000, 3))` canvas. -/
def CANVASshape0 : ℚ := 1000

/-- `CANVAS.shape[1]` for the global `np.zeros((1000, 1000, 3))` canvas. -/
def CANVASshape1 : ℚ := 1000

/-- One emitted `cv2.line` call: segment endpoints, blended color, line width. -/
structure Draw where
  p1 : ℚ × ℚ
  p2 : ℚ × ℚ
  color : Except String (ℤ × ℤ × ℤ)
  width : ℕ

/-- `PShape.perlin_move(pline)`: if the previous position is within the canvas
bounds on both axes and within the shape's region, emit the `cv2.line` draw from
the previous to the current position, colored by blending translucent white
(alpha 0.2) over the canvas pixel at the integer-truncated previous position
(read through the abstract pixel function `cpx`, row index first). -/
def PShape.perlin_move (cpx : ℤ → ℤ → ℚ × ℚ × ℚ) (s : PShape) (p : PLine) :
    Option Draw :=
  if withinF64 p.xi (0, CANVASshape0) && withinF64 p.yi (0, CANVASshape1) then
    if s.withinPLine p then
      some { p1 := (p.xi, p.yi)
             p2 := (p.x, p.y)
             color := rgba2rgb [255, 255, 255, 1 / 5] (cpx (pyInt p.yi) (pyInt p.xi)) none
             width := 1 }
    else none
  else none

/-- One iteration of the loop body of `PShape.__call__` for a single line:
`self.perlin_move(pline)` (the draw step, which reads but never writes the line)
followed by `pline()` (the advance). -/
def PShape.tickOne (cpx : ℤ → ℤ → ℚ × ℚ × ℚ) (noise : ℚ → ℚ → ℚ → ℚ) (now : ℚ)
    (s : PShape) (p : PLine) : Option Draw × PLine :=
  (s.perlin_move cpx p, p.perlin_move noise now)

/-- `PShape.__call__()`: run the draw step and then the advance on every owned
line; the result is the list of emitted draws and the post-tick group state. -/
def PShape.call (cpx : ℤ → ℤ → ℚ × ℚ × ℚ) (noise : ℚ → ℚ → ℚ → ℚ) (now : ℚ)
    (s : PShape) : List Draw × PShape :=
  let steps := s.plines.map (s.tickOne cpx noise now)
  (steps.filterMap Prod.fst, { s with plines := steps.map Prod.snd })

/-- `np.linspace(start, stop, num)`: `num` evenly spaced samples with both
endpoints included. -/
def linspace (start stop : ℚ) (num : ℕ) : List ℚ :=
  if num = 0 then []
  else if num = 1 then [start]
  else (List.range num).map (fun i => start + (i : ℚ) * (stop - start) / ((num : ℚ) - 1))

/-- The nested `for x in xspace: for y in yspace:` loop of `grid`, building one
`PShape` per anchor center; `i` counts the `np.random.randint(20, 80)` calls
made so far, so each constructed shape consumes one fresh draw from `grng`. -/
def gridBuildAux (grng : ℕ → ℕ) (prng : ℕ → ℕ → ℕ × ℕ × ℕ)
    (xb yb : ℚ) (shape : String) : List (ℚ × ℚ) → ℕ → List PShape
  | [], _ => []
  | c :: rest, i =>
      PShape.init c (c.1 - xb, c.1 + xb) (c.2 - yb, c.2 + yb)
          (pyRandintN (grng i) 20 80) shape (prng i) ::
        gridBuildAux grng prng xb yb shape rest (i + 1)

/-- `grid(n, rows, columns, margin, xbounds, ybounds, shape)` from the source:
`if n:` uses an `n × n` grid of linspace anchor centers inset by `margin`;
otherwise `assert rows and columns` and use a `rows × columns` grid; one `PShape`
is built per center with bounds of half-extent `xbounds` / `ybounds` around it. -/
def grid (grng : ℕ → ℕ) (prng : ℕ → ℕ → ℕ × ℕ × ℕ) (n rows columns : Option ℕ)
    (margin : ℚ) (xbounds ybounds : ℚ) (shape : String) :
    Except String (List PShape) :=
  if truthy n then
    let xspace := linspace (0 + margin) (CANVASshape0 - margin) (n.getD 0)
    let yspace := linspace (0 + margin) (CANVASshape1 - margin) (n.getD 0)
    Except.ok (gridBuildAux grng prng xbounds ybounds shape
      (xspace.flatMap (fun x => yspace.map (fun y => (x, y)))) 0)
  else if truthy rows && truthy columns then
    let xspace := linspace (0 + margin) (CANVASshape0 - margin) (columns.getD 0)
    let yspace := linspace (0 + margin) (CANVASshape1 - margin) (rows.getD 0)
    Except.ok (gridBuildAux grng prng xbounds ybounds shape
      (xspace.flatMap (fun x => yspace.map (fun y => (x, y)))) 0)
  else
    Except.error "Rows and Columns must be defined if not using n"

/-- Ellipse containment as the specification words it (for comparison with the
code's `PShape.withinPLine`): normalized squared distances with the half-extents
themselves as semi-axis lengths. -/
def ellipseSpecContains (hx hy : ℚ) (p : PLine) : Prop :=
  (p.xi - p.xo) ^ 2 / hx ^ 2 + (p.yi - p.yo) ^ 2 / hy ^ 2 ≤ 1

/-- A concrete line whose previous position has drifted `3/2` from its anchor. -/
def pXdrift : PLine :=
  { x := 0, y := 0, xi := 3 / 2, yi := 0, xo := 0, yo := 0, xinc := 0, yinc := 0, z := 0 }

/-- A degenerate abstract random stream, used to instantiate constructions. -/
def zeroPrng : ℕ → ℕ × ℕ × ℕ := fun _ => (0, 0, 0)

/-- Projection of the draw step out of one loop iteration is definitionally the
draw emitted from the pre-advance state. -/
theorem tickOne_fst (cpx : ℤ → ℤ → ℚ × ℚ × ℚ) (noise : ℚ → ℚ → ℚ → ℚ) (now : ℚ)
    (s : PShape) (p : PLine) : (s.tickOne cpx noise now p).1 = s.perlin_move cpx p :=
  rfl

/-- C1: the claim that circle containment divides by the squared half-extents is
false on the code: with half-extents 1 around the origin, a previous position at
distance `3/2` from the anchor has normalized squared-distance sum `9/4 > 1` under
the claim's formula, yet `within` returns `True` (the code divides by the squared
full bound spans, here `4`). -/
theorem C1_counterexample :
    (PShape.init (0, 0) (-1, 1) (-1, 1) 0 "circle" zeroPrng).withinPLine pXdrift = true
      ∧ ¬ ellipseSpecContains 1 1 pXdrift := by
  constructor
  · norm_num [PShape.init, PShape.withinPLine, pXdrift]
    decide
  · norm_num [ellipseSpecContains, pXdrift]

/-- C1 (amended): for a `PShape` with shape `"circle"` and bounds
`(cx - hx, cx + hx)`, `(cy - hy, cy + hy)`, `within(p)` is true iff
`((p.xi - p.xo)^2 / (2*hx)^2) + ((p.yi - p.yo)^2 / (2*hy)^2) <= 1`: the semi-axis
lengths are the full bound spans `2*hx`, `2*hy`, not the half-extents. -/
theorem C1_amended (cx cy hx hy : ℚ) (lines : ℕ) (prng : ℕ → ℕ × ℕ × ℕ) (p : PLine) :
    (PShape.init (cx, cy) (cx - hx, cx + hx) (cy - hy, cy + hy) lines "circle" prng).withinPLine p
        = true
      ↔ (p.xi - p.xo) ^ 2 / (2 * hx) ^ 2 + (p.yi - p.yo) ^ 2 / (2 * hy) ^ 2 ≤ 1 := by
  have e1 : cx + hx - (cx - hx) = 2 * hx := by ring
  have e2 : cy + hy - (cy - hy) = 2 * hy := by ring
  simp only [PShape.withinPLine, PShape.init]
  simp [e1, e2]

/-- C5: for a `PShape` with shape `"rectangle"` and bounds `(cx - hx, cx + hx)`,
`(cy - hy, cy + hy)`, `within(p)` is true iff the previous position lies within
both ranges, inclusive on both ends of both axes. -/
theorem C5_rectangle_within (cx cy hx hy : ℚ) (lines : ℕ) (prng : ℕ → ℕ × ℕ × ℕ)
    (p : PLine) :
    (PShape.init (cx, cy) (cx - hx, cx + hx) (cy - hy, cy + hy) lines "rectangle" prng).withinPLine p
        = true
      ↔ (cx - hx ≤ p.xi ∧ p.xi ≤ cx + hx) ∧ (cy - hy ≤ p.yi ∧ p.yi ≤ cy + hy) := by
  simp only [PShape.withinPLine, PShape.init]
  simp

/-- C3: one `advance()` samples the noise field at `(x*0.01, y*0.01, t)` and at
`(y*0.01, x*0.01, t)` (axes swapped), accumulates both samples into the velocity
increments, records the current position into the previous position, and adds the
updated increments to the position; no clamping occurs. -/
theorem C3_advance_step (noise : ℚ → ℚ → ℚ → ℚ) (now : ℚ) (p : PLine) :
    (p.perlin_move noise now).xinc
        = p.xinc + noise (p.x * (1 / 100)) (p.y * (1 / 100)) (p.timedelta now)
    ∧ (p.perlin_move noise now).yinc
        = p.yinc + noise (p.y * (1 / 100)) (p.x * (1 / 100)) (p.timedelta now)
    ∧ (p.perlin_move noise now).xi = p.x
    ∧ (p.perlin_move noise now).yi = p.y
    ∧ (p.perlin_move noise now).x
        = p.x + (p.xinc + noise (p.x * (1 / 100)) (p.y * (1 / 100)) (p.timedelta now))
    ∧ (p.perlin_move noise now).y
        = p.y + (p.yinc + noise (p.y * (1 / 100)) (p.x * (1 / 100)) (p.timedelta now)) :=
  ⟨rfl, rfl, rfl, rfl, rfl, rfl⟩

/-- C6: the anchor position is immutable: after any number of `advance()` calls a
line's `(xo, yo)` equals its value before, and a full group tick preserves the
anchor of every owned line. -/
theorem C6_anchor_immutable (noise : ℚ → ℚ → ℚ → ℚ) (ts : ℕ → ℚ)
    (cpx : ℤ → ℤ → ℚ × ℚ × ℚ) (now : ℚ) (n : ℕ) (p : PLine) (s : PShape) :
    (PLine.moveN noise ts n p).xo = p.xo
    ∧ (PLine.moveN noise ts n p).yo = p.yo
    ∧ (s.call cpx noise now).2.plines.map PLine.xo = s.plines.map PLine.xo
    ∧ (s.call cpx noise now).2.plines.map PLine.yo = s.plines.map PLine.yo := by
  refine ⟨?_, ?_, ?_, ?_⟩
  · induction n generalizing p with
    | zero => rfl
    | succ k ih => simp only [PLine.moveN]; exact ih _
  · induction n generalizing p with
    | zero => rfl
    | succ k ih => simp only [PLine.moveN]; exact ih _
  · simp [PShape.call, PShape.tickOne, List.map_map, Function.comp, PLine.perlin_move]
  · simp [PShape.call, PShape.tickOne, List.map_map, Function.comp, PLine.perlin_move]

/-- C2: on a tick, a draw is emitted for a line iff its pre-advance previous
position lies within the canvas bounds on both axes and within the group's
region, and the emitted segment runs from the previous to the current position;
the emitted draws of a full tick come from the pre-advance states, and every
owned line is then advanced unconditionally. -/
theorem C2_draw_gating (cpx : ℤ → ℤ → ℚ × ℚ × ℚ) (noise : ℚ → ℚ → ℚ → ℚ) (now : ℚ)
    (s : PShape) (p : PLine) :
    (s.perlin_move cpx p =
      if ((0 ≤ p.xi ∧ p.xi ≤ CANVASshape0) ∧ (0 ≤ p.yi ∧ p.yi ≤ CANVASshape1))
          ∧ s.withinPLine p = true
      then some { p1 := (p.xi, p.yi)
                  p2 := (p.x, p.y)
                  color := rgba2rgb [255, 255, 255, 1 / 5]
                    (cpx (pyInt p.yi) (pyInt p.xi)) none
                  width := 1 }
      else none)
    ∧ (s.call cpx noise now).1 = s.plines.filterMap (s.perlin_move cpx)
    ∧ (s.call cpx noise now).2.plines = s.plines.map (PLine.perlin_move noise now) := by
  refine ⟨?_, ?_, ?_⟩
  · simp only [PShape.perlin_move, withinF64, Bool.and_eq_true, decide_eq_true_eq]
    by_cases h1 : (0 : ℚ) ≤ p.xi ∧ p.xi ≤ CANVASshape0 <;>
      by_cases h2 : (0 : ℚ) ≤ p.yi ∧ p.yi ≤ CANVASshape1 <;>
      by_cases h3 : s.withinPLine p = true <;>
      simp [h1, h2, h3]
  · simp only [PShape.call, List.filterMap_map]
    rfl
  · simp [PShape.call, PShape.tickOne, List.map_map, Function.comp]

/-- C10: the draw step mutates nothing: one loop iteration changes a line exactly
by its own `advance`, and a full group tick leaves the bounds and shape tag
unchanged and maps every line through `advance` alone, independently of the
canvas contents read while drawing. -/
theorem C10_draw_step_frame (cpx cpx2 : ℤ → ℤ → ℚ × ℚ × ℚ) (noise : ℚ → ℚ → ℚ → ℚ)
    (now : ℚ) (s : PShape) (p : PLine) :
    (s.tickOne cpx noise now p).2 = p.perlin_move noise now
    ∧ (s.call cpx noise now).2.plines = s.plines.map (PLine.perlin_move noise now)
    ∧ (s.call cpx noise now).2.xbounds = s.xbounds
    ∧ (s.call cpx noise now).2.ybounds = s.ybounds
    ∧ (s.call cpx noise now).2.shape = s.shape
    ∧ (s.call cpx noise now).2 = (s.call cpx2 noise now).2 := by
  refine ⟨rfl, ?_, rfl, rfl, rfl, ?_⟩
  · simp [PShape.call, PShape.tickOne, List.map_map, Function.comp]
  · simp [PShape.call, PShape.tickOne, List.map_map, Function.comp]

/-- C4: the claim that an unsupported region kind raises is false on the code: a
`PShape` with shape tag `"triangle"` does not raise on a `PLine` containment
check; both string branches fall through and the initialized `within_bool =
False` is returned as an ordinary boolean. -/
theorem C4_counterexample :
    (PShape.init (0, 0) (0, 1) (0, 1) 0 "triangle" zeroPrng).within
        (WithinArg.pl pXdrift)
      = Except.ok false := by
  rfl

/-- C4 (amended): a containment check with a positional argument of a type not
registered with the dispatcher raises `NotImplementedError`, but an unsupported
region kind is not an error: the `PLine` containment check then returns `False`. -/
theorem C4_amended (s : PShape) (p : PLine) (h1 : s.shape ≠ "rectangle")
    (h2 : s.shape ≠ "circle") :
    s.within WithinArg.unregistered
        = Except.error "Within only supports np.float64 or Pline Object"
    ∧ s.within (WithinArg.pl p) = Except.ok false := by
  refine ⟨rfl, ?_⟩
  simp only [PShape.within, PShape.withinPLine, if_neg h1, if_neg h2]

/-- C4 witness: the amended statement applied to the `"triangle"` shape. -/
theorem C4_amended_witness :
    (PShape.init (0, 0) (0, 1) (0, 1) 0 "triangle" zeroPrng).within
        WithinArg.unregistered
        = Except.error "Within only supports np.float64 or Pline Object"
    ∧ (PShape.init (0, 0) (0, 1) (0, 1) 0 "triangle" zeroPrng).within
        (WithinArg.pl pXdrift) = Except.ok false :=
  C4_amended _ pXdrift (by decide) (by decide)

/-- A Python list index read succeeds exactly when the index is in range. -/
theorem pyIdx_isOk (l : List ℚ) (i : ℕ) :
    exceptIsOk (pyIdx l i) = true ↔ i < l.length := by
  cases h : l[i]? with
  | none =>
    have := List.getElem?_eq_none_iff.mp h
    simp [pyIdx, h, exceptIsOk]
    omega
  | some v =>
    have := (List.getElem?_eq_some_iff.mp h).1
    simp [pyIdx, h, exceptIsOk]
    omega

/-- The alpha value resolved from the color tuple succeeds exactly when the color
has exactly four channels. -/
theorem colorAlpha_isOk (color : List ℚ) :
    exceptIsOk (colorAlpha color) = true ↔ color.length = 4 := by
  by_cases hl : color.length = 4
  · cases hlast : color.getLast? with
    | none =>
      have : color = [] := List.getLast?_eq_none_iff.mp hlast
      subst this
      simp at hl
    | some v => simp [colorAlpha, hl, hlast, exceptIsOk]
  · simp [colorAlpha, hl, exceptIsOk]

/-- C8: the claim that `grid` returns normally whenever `n` is supplied, or both
`rows` and `columns` are supplied, is false on the code: `n = 0` is supplied yet
falsy under `if n:`, so `grid(n=0)` still hits the `assert` and raises. -/
theorem C8_counterexample :
    grid (fun _ => 0) (fun _ _ => (0, 0, 0)) (some 0) none none 200 100 100 "rectangle"
      = Except.error "Rows and Columns must be defined if not using n" := by
  rfl

/-- C8 (amended): `grid` fails fast with a descriptive message exactly when no
truthy (nonzero) `n` is supplied and it is not the case that truthy `rows` and
`columns` are both supplied; otherwise it returns a list of shapes normally. -/
theorem C8_amended (grng : ℕ → ℕ) (prng : ℕ → ℕ → ℕ × ℕ × ℕ)
    (n rows columns : Option ℕ) (margin xbounds ybounds : ℚ) (shape : String) :
    exceptIsOk (grid grng prng n rows columns margin xbounds ybounds shape) = false
      ↔ truthy n = false ∧ (truthy rows && truthy columns) = false := by
  cases h1 : truthy n <;> cases h2 : truthy rows <;> cases h3 : truthy columns <;>
    simp [grid, h1, h2, h3, exceptIsOk]

/-- C9: the claim that `rgba2rgb` returns a triple whenever an explicit alpha is
supplied is false on the code: an explicit `alpha = 0` is falsy under
`if alpha:`, so a 3-channel color with `alpha = 0` still hits the assert and
raises. -/
theorem C9_counterexample :
    rgba2rgb [255, 255, 255] (0, 0, 0) (some 0)
      = Except.error "Need 4 channel RGBA if no alpha defined" := by
  rfl

/-- C9 (amended): `rgba2rgb` succeeds exactly when the color has exactly four
channels, or a truthy (nonzero) alpha is supplied and the color has at least the
three indexed channels; in every other case it fails fast (a 4-channel check
failure reports the descriptive assert message). -/
theorem C9_amended (color : List ℚ) (background : ℚ × ℚ × ℚ) (alpha : Option ℚ) :
    exceptIsOk (rgba2rgb color background alpha) = true
      ↔ (color.length = 4 ∨ (truthyQ alpha = true ∧ 3 ≤ color.length)) := by
  have key : ∀ a : ℚ, exceptIsOk
      (match pyIdx color 0, pyIdx color 1, pyIdx color 2 with
       | Except.ok c0, Except.ok c1, Except.ok c2 =>
           Except.ok (pyInt ((1 - a) * background.1 + a * c0),
                      pyInt ((1 - a) * background.2.1 + a * c1),
                      pyInt ((1 - a) * background.2.2 + a * c2))
       | Except.error e, _, _ => Except.error e
       | _, Except.error e, _ => Except.error e
       | _, _, Except.error e => (Except.error e : Except String (ℤ × ℤ × ℤ))) = true
      ↔ 3 ≤ color.length := by
    intro a
    have l0 := pyIdx_isOk color 0
    have l1 := pyIdx_isOk color 1
    have l2 := pyIdx_isOk color 2
    rcases h0 : pyIdx color 0 with e0 | v0 <;>
      rcases h1 : pyIdx color 1 with e1 | v1 <;>
      rcases h2 : pyIdx color 2 with e2 | v2 <;>
      simp only [exceptIsOk, h0, h1, h2] at l0 l1 l2 ⊢ <;>
      simp at l0 l1 l2 ⊢ <;>
      first
        | omega
        | simp_all
  have hca := colorAlpha_isOk color
  rcases alpha with _ | a
  · cases hira : colorAlpha color with
    | error e =>
      rw [hira] at hca
      simp [exceptIsOk] at hca
      simp [rgba2rgb, hira, exceptIsOk, truthyQ]
      omega
    | ok av =>
      rw [hira] at hca
      simp [exceptIsOk] at hca
      simp only [rgba2rgb, hira]
      rw [key av]
      simp [truthyQ]
      omega
  · by_cases ha : a = 0
    · subst ha
      cases hira : colorAlpha color with
      | error e =>
        rw [hira] at hca
        simp [exceptIsOk] at hca
        simp [rgba2rgb, hira, exceptIsOk, truthyQ]
        omega
      | ok av =>
        rw [hira] at hca
        simp [exceptIsOk] at hca
        simp only [rgba2rgb, if_neg (by simp : ¬(0 : ℚ) ≠ 0), hira]
        rw [key av]
        simp [truthyQ]
        omega
    · simp only [rgba2rgb, if_pos ha]
      rw [key a]
      simp [truthyQ, ha]
      omega

/-- Every line owned by a freshly constructed shape is anchored at the shape's
construction center. -/
theorem initShape_anchor (c : ℚ × ℚ) (xb yb : ℚ × ℚ) (n : ℕ) (sh : String)
    (pr : ℕ → ℕ × ℕ × ℕ) (p : PLine)
    (hp : p ∈ (PShape.init c xb yb n sh pr).plines) : p.xo = c.1 ∧ p.yo = c.2 := by
  simp only [PShape.init, List.mem_map, List.mem_range] at hp
  obtain ⟨i, _, rfl⟩ := hp
  exact ⟨rfl, rfl⟩

/-- C7: `grid(n=3, margin=200)` on the 1000×1000 canvas yields exactly 9 groups;
their anchor centers are the 3×3 product of `linspace(200, 800, 3)` on both axes,
each region spans half-extent 100 around its center on both axes, each group's
point count lies in `[20, 80)`, and every owned line is anchored at the group
center. -/
theorem C7_grid_3x3 (grng : ℕ → ℕ) (prng : ℕ → ℕ → ℕ × ℕ × ℕ) :
    ∃ l, grid grng prng (some 3) none none 200 100 100 "rectangle" = Except.ok l
      ∧ l.length = 9
      ∧ l.map (fun s => ((s.xbounds.1 + s.xbounds.2) / 2, (s.ybounds.1 + s.ybounds.2) / 2))
          = [(200, 200), (200, 500), (200, 800), (500, 200), (500, 500), (500, 800),
             (800, 200), (800, 500), (800, 800)]
      ∧ l.map PShape.xbounds
          = [(100, 300), (100, 300), (100, 300), (400, 600), (400, 600), (400, 600),
             (700, 900), (700, 900), (700, 900)]
      ∧ l.map PShape.ybounds
          = [(100, 300), (400, 600), (700, 900), (100, 300), (400, 600), (700, 900),
             (100, 300), (400, 600), (700, 900)]
      ∧ ∀ s ∈ l, (20 ≤ s.plines.length ∧ s.plines.length < 80)
          ∧ ∀ p ∈ s.plines, p.xo = (s.xbounds.1 + s.xbounds.2) / 2
              ∧ p.yo = (s.ybounds.1 + s.ybounds.2) / 2 := by
  have hline0 : linspace (0 + 200 : ℚ) (CANVASshape0 - 200) 3 = [200, 500, 800] := by
    norm_num [linspace, CANVASshape0, List.range_succ]
  have hline1 : linspace (0 + 200 : ℚ) (CANVASshape1 - 200) 3 = [200, 500, 800] := by
    norm_num [linspace, CANVASshape1, List.range_succ]
  have ht : truthy (some 3) = true := rfl
  refine ⟨gridBuildAux grng prng 100 100 "rectangle"
      [((200 : ℚ), (200 : ℚ)), (200, 500), (200, 800), (500, 200), (500, 500), (500, 800),
       (800, 200), (800, 500), (800, 800)] 0, ?_, ?_, ?_, ?_, ?_, ?_⟩
  · simp only [grid, ht, if_true, Option.getD_some, hline0, hline1]
    rfl
  · simp [gridBuildAux]
  · norm_num [gridBuildAux, PShape.init]
  · norm_num [gridBuildAux, PShape.init]
  · norm_num [gridBuildAux, PShape.init]
  · intro s hs
    simp only [gridBuildAux, List.mem_cons, List.not_mem_nil, or_false] at hs
    rcases hs with rfl | rfl | rfl | rfl | rfl | rfl | rfl | rfl | rfl <;>
      refine ⟨⟨?_, ?_⟩, ?_⟩ <;>
      first
        | (simp only [PShape.init, List.length_map, List.length_range, pyRandintN]; omega)
        | (intro p hp
           obtain ⟨h1, h2⟩ := initShape_anchor _ _ _ _ _ _ p hp
           exact ⟨by rw [h1]; norm_num [PShape.init], by rw [h2]; norm_num [PShape.init]⟩)

/-- C7 witness: the grid construction evaluated on concrete random streams. -/
theorem C7_grid_3x3_witness :
    ∃ l, grid (fun _ => 0) (fun _ _ => (0, 0, 0)) (some 3) none none 200 100 100 "rectangle"
        = Except.ok l
      ∧ l.length = 9
      ∧ l.map (fun s => ((s.xbounds.1 + s.xbounds.2) / 2, (s.ybounds.1 + s.ybounds.2) / 2))
          = [(200, 200), (200, 500), (200, 800), (500, 200), (500, 500), (500, 800),
             (800, 200), (800, 500), (800, 800)]
      ∧ l.map PShape.xbounds
          = [(100, 300), (100, 300), (100, 300), (400, 600), (400, 600), (400, 600),
             (700, 900), (700, 900), (700, 900)]
      ∧ l.map PShape.ybounds
          = [(100, 300), (400, 600), (700, 900), (100, 300), (400, 600), (700, 900),
             (100, 300), (400, 600), (700, 900)]
      ∧ ∀ s ∈ l, (20 ≤ s.plines.length ∧ s.plines.length < 80)
          ∧ ∀ p ∈ s.plines, p.xo = (s.xbounds.1 + s.xbounds.2) / 2
              ∧ p.yo = (s.ybounds.1 + s.ybounds.2) / 2 :=
  C7_grid_3x3 (fun _ => 0) (fun _ _ => (0, 0, 0))
